import Mathlib

set_option maxHeartbeats 1000000

/-!
Verification of src/backend/nano_fun.py (AR Designer Kit Gemini service).

The module is a thin client over a remote generative-AI service.  Every
claim-relevant piece of local computation is embedded below:

* JSON response decoding (recognize_objects, analyze_room,
  generate_floor_plan, get_product_recommendations).  JSON values are
  modelled by the `Json` inductive with numbers as rationals; the result
  of `json.loads(response.text)` is passed as `Option Json`, `none`
  standing for a raised `json.JSONDecodeError` (the only exception the
  source catches).  Python's `dict.get(key, default)` is modelled by
  `lookupField`/`Option.getD`, and calling `.get` on a non-dict value is
  an `AttributeError`, modelled by `Except.error`.  Dataclass fields
  receive the raw decoded values, exactly as in Python (no coercion), so
  the record fields below are `Json`-valued.
* The text+image response-part walking loops (generate_image, edit_image,
  generate_room_style, generate_style_variations, RoomEditingSession.edit,
  composite_with_references, generate_seamless_texture,
  generate_grounded_image, generate_4k_image).  A response part carries an
  optional text, an optional inline payload (an opaque identifier; the
  library call `part.as_image()` is modelled as returning that payload)
  and the `thought` flag.
* The reference-image truncation of composite_with_references and the
  per-modifier loop of generate_style_variations, whose remote calls are
  modelled by an outcome list: one `Except` per issued request, `error`
  standing for a raised exception.
-/

/-- JSON values as produced by `json.loads`; numbers are modelled as rationals. -/
inductive Json where
  | null : Json
  | bool (b : Bool) : Json
  | num (q : ℚ) : Json
  | str (s : String) : Json
  | arr (items : List Json) : Json
  | obj (fields : List (String × Json)) : Json

/-- Binding of a key in a decoded JSON object (Python dicts have unique keys,
so the first match is the binding). -/
def lookupField (fields : List (String × Json)) (key : String) : Option Json :=
  (fields.find? (fun p => p.1 == key)).map (fun p => p.2)

/-- Numeric view of a Json value under Python comparison semantics
(`bool` is an `int` subclass in Python, so `true`/`false` compare as 1/0). -/
def pyNum : Json → Option ℚ
  | Json.num q => some q
  | Json.bool b => some (if b then 1 else 0)
  | _ => none

-- ===========================================================================
-- Data classes (fields hold the raw decoded JSON values, as in Python)
-- ===========================================================================

/-- Dataclass BoundingBox of nano_fun.py. -/
structure BoundingBox where
  min_x : Json
  min_y : Json
  max_x : Json
  max_y : Json

/-- Dataclass RecognizedObject of nano_fun.py. -/
structure RecognizedObject where
  label : Json
  confidence : Json
  bounding_box : BoundingBox
  category : Json

/-- Dataclass RoomDimensions of nano_fun.py. -/
structure RoomDimensions where
  estimated_width : Json
  estimated_length : Json
  estimated_height : Json

/-- Dataclass RoomAnalysis of nano_fun.py. -/
structure RoomAnalysis where
  room_type : Json
  dimensions : RoomDimensions
  lighting_suggestions : Json
  style_recommendations : Json
  detected_features : Json

/-- Dataclass FloorPlan of nano_fun.py. -/
structure FloorPlan where
  walls : Json
  doors : Json
  windows : Json
  dimensions : Json

/-- Dataclass ProductRecommendation of nano_fun.py. -/
structure ProductRecommendation where
  name : Json
  brand : Json
  price_range : Json
  retailer : Json
  fit_rationale : Json
  search_query : Json

-- ===========================================================================
-- recognize_objects (nano_fun.py lines 301-321)
-- ===========================================================================

/-- Loop body of recognize_objects for one array item: keep the object when
`obj.get("confidence", 0) >= min_confidence`; bounding-box defaults are
min 0 / max 1; label defaults to "unknown", category to "other".
`.get` on a non-dict item or non-dict bounding_box raises (AttributeError),
and comparing a non-numeric confidence raises (TypeError); neither is caught. -/
def recognize_decode_item (min_confidence : ℚ) (item : Json) :
    Except String (Option RecognizedObject) :=
  match item with
  | Json.obj ifs =>
      match pyNum ((lookupField ifs "confidence").getD (Json.num 0)) with
      | none => Except.error "TypeError"
      | some q =>
          if min_confidence ≤ q then
            match (lookupField ifs "bounding_box").getD (Json.obj []) with
            | Json.obj bfs =>
                Except.ok (some
                  ⟨(lookupField ifs "label").getD (Json.str "unknown"),
                    (lookupField ifs "confidence").getD (Json.num 0),
                    ⟨(lookupField bfs "min_x").getD (Json.num 0),
                     (lookupField bfs "min_y").getD (Json.num 0),
                     (lookupField bfs "max_x").getD (Json.num 1),
                     (lookupField bfs "max_y").getD (Json.num 1)⟩,
                    (lookupField ifs "category").getD (Json.str "other")⟩)
            | _ => Except.error "AttributeError"
          else Except.ok none
  | _ => Except.error "AttributeError"

/-- The `for obj in data` loop of recognize_objects, appending kept objects
in order. -/
def recognize_loop (min_confidence : ℚ) : List Json → Except String (List RecognizedObject)
  | [] => Except.ok []
  | item :: rest =>
      match recognize_decode_item min_confidence item with
      | Except.error e => Except.error e
      | Except.ok o =>
          match recognize_loop min_confidence rest with
          | Except.error e => Except.error e
          | Except.ok tail =>
              match o with
              | some r => Except.ok (r :: tail)
              | none => Except.ok tail

/-- Decoding body of recognize_objects.  The argument is the JSON parse of
`response.text`; `none` means `json.loads` raised `JSONDecodeError`, which the
source catches, logging and returning `[]`.  Iterating a parsed value that is
an empty dict or empty string yields no iterations (hence `[]`); iterating a
non-empty dict or string reaches `.get` on a string (AttributeError), and a
null/bool/number is not iterable (TypeError) - neither is caught. -/
def recognize_objects_decode (parsed : Option Json) (min_confidence : ℚ) :
    Except String (List RecognizedObject) :=
  match parsed with
  | none => Except.ok []
  | some (Json.arr items) => recognize_loop min_confidence items
  | some (Json.obj []) => Except.ok []
  | some (Json.obj (_ :: _)) => Except.error "AttributeError"
  | some (Json.str s) => if s = "" then Except.ok [] else Except.error "AttributeError"
  | some _ => Except.error "TypeError"

-- ===========================================================================
-- analyze_room (nano_fun.py lines 372-394)
-- ===========================================================================

/-- Decoding body of analyze_room; `none` is a caught `JSONDecodeError`,
answered by the zero-valued RoomAnalysis fallback of the source. -/
def analyze_room_decode (parsed : Option Json) : Except String RoomAnalysis :=
  match parsed with
  | none =>
      Except.ok ⟨Json.str "unknown", ⟨Json.num 0, Json.num 0, Json.num 0⟩,
        Json.arr [], Json.arr [], Json.arr []⟩
  | some (Json.obj fs) =>
      match (lookupField fs "dimensions").getD (Json.obj []) with
      | Json.obj dfs =>
          Except.ok ⟨(lookupField fs "room_type").getD (Json.str "unknown"),
            ⟨(lookupField dfs "estimated_width").getD (Json.num 0),
             (lookupField dfs "estimated_length").getD (Json.num 0),
             (lookupField dfs "estimated_height").getD (Json.num 0)⟩,
            (lookupField fs "lighting_suggestions").getD (Json.arr []),
            (lookupField fs "style_recommendations").getD (Json.arr []),
            (lookupField fs "detected_features").getD (Json.arr [])⟩
      | _ => Except.error "AttributeError"
  | some _ => Except.error "AttributeError"

-- ===========================================================================
-- generate_floor_plan (nano_fun.py lines 973-983)
-- ===========================================================================

/-- Default dimensions dict `{"width": 0, "length": 0}` of generate_floor_plan. -/
def floorPlanDefaultDims : Json := Json.obj [("width", Json.num 0), ("length", Json.num 0)]

/-- Decoding body of generate_floor_plan; `none` is a caught `JSONDecodeError`,
answered by `FloorPlan([], [], [], {"width": 0, "length": 0})`. -/
def generate_floor_plan_decode (parsed : Option Json) : Except String FloorPlan :=
  match parsed with
  | none => Except.ok ⟨Json.arr [], Json.arr [], Json.arr [], floorPlanDefaultDims⟩
  | some (Json.obj fs) =>
      Except.ok ⟨(lookupField fs "walls").getD (Json.arr []),
        (lookupField fs "doors").getD (Json.arr []),
        (lookupField fs "windows").getD (Json.arr []),
        (lookupField fs "dimensions").getD floorPlanDefaultDims⟩
  | some _ => Except.error "AttributeError"

-- ===========================================================================
-- get_product_recommendations (nano_fun.py lines 1047-1062)
-- ===========================================================================

/-- Decoding of one recommendation item; every field defaults to "". -/
def product_decode_item (item : Json) : Except String ProductRecommendation :=
  match item with
  | Json.obj ifs =>
      Except.ok ⟨(lookupField ifs "name").getD (Json.str ""),
        (lookupField ifs "brand").getD (Json.str ""),
        (lookupField ifs "price_range").getD (Json.str ""),
        (lookupField ifs "retailer").getD (Json.str ""),
        (lookupField ifs "fit_rationale").getD (Json.str ""),
        (lookupField ifs "search_query").getD (Json.str "")⟩
  | _ => Except.error "AttributeError"

/-- The list comprehension of get_product_recommendations. -/
def product_loop : List Json → Except String (List ProductRecommendation)
  | [] => Except.ok []
  | item :: rest =>
      match product_decode_item item with
      | Except.error e => Except.error e
      | Except.ok r =>
          match product_loop rest with
          | Except.error e => Except.error e
          | Except.ok tail => Except.ok (r :: tail)

/-- Decoding body of get_product_recommendations; `none` is a caught
`JSONDecodeError`, answered by `[]`. -/
def get_product_recommendations_decode (parsed : Option Json) :
    Except String (List ProductRecommendation) :=
  match parsed with
  | none => Except.ok []
  | some (Json.arr items) => product_loop items
  | some (Json.obj []) => Except.ok []
  | some (Json.obj (_ :: _)) => Except.error "AttributeError"
  | some (Json.str s) => if s = "" then Except.ok [] else Except.error "AttributeError"
  | some _ => Except.error "TypeError"

-- ===========================================================================
-- Response parts and the text+image decoding loops
-- ===========================================================================

/-- One response part: the `thought` flag, optional text, optional inline
binary payload (an opaque identifier; `part.as_image()` is modelled as
returning the payload itself). -/
structure ResponsePart where
  thought : Bool
  text : Option String
  inline_data : Option Nat
  deriving DecidableEq

/-- Loop body shared verbatim by the text+image decoders of nano_fun.py:
`if part.text is not None: description = part.text
elif part.inline_data is not None: image = part.as_image()`. -/
def decodeStepTI (acc : Option Nat × String) (part : ResponsePart) : Option Nat × String :=
  match part.text with
  | some t => (acc.1, t)
  | none =>
      match part.inline_data with
      | some d => (some d, acc.2)
      | none => acc

/-- Response decoding loop of generate_image (lines 437-446; no thought check). -/
def generate_image_decode (parts : List ResponsePart) : Option Nat × String :=
  parts.foldl decodeStepTI (none, "")

/-- Response decoding loop of edit_image (lines 492-501; identical to
generate_image's, no thought check). -/
def edit_image_decode (parts : List ResponsePart) : Option Nat × String :=
  parts.foldl decodeStepTI (none, "")

/-- Response decoding loop of generate_room_style (lines 572-584): parts with
the thought flag are skipped. -/
def generate_room_style_decode (parts : List ResponsePart) : Option Nat × String :=
  parts.foldl (fun acc p => if p.thought then acc else decodeStepTI acc p) (none, "")

/-- Response decoding loop inside generate_style_variations (lines 654-663):
thought parts skipped. -/
def style_variation_decode (parts : List ResponsePart) : Option Nat × String :=
  parts.foldl (fun acc p => if p.thought then acc else decodeStepTI acc p) (none, "")

/-- Response decoding loop of composite_with_references (lines 846-855):
thought parts skipped. -/
def composite_with_references_decode (parts : List ResponsePart) : Option Nat × String :=
  parts.foldl (fun acc p => if p.thought then acc else decodeStepTI acc p) (none, "")

/-- Response decoding loop of generate_grounded_image (lines 1102-1112):
thought parts skipped. -/
def generate_grounded_image_decode (parts : List ResponsePart) : Option Nat × String :=
  parts.foldl (fun acc p => if p.thought then acc else decodeStepTI acc p) (none, "")

/-- Response decoding loop of generate_4k_image (lines 1156-1165):
thought parts skipped. -/
def generate_4k_image_decode (parts : List ResponsePart) : Option Nat × String :=
  parts.foldl (fun acc p => if p.thought then acc else decodeStepTI acc p) (none, "")

/-- Response decoding loop of RoomEditingSession.edit (lines 770-779):
thought parts skipped, text segments concatenated (`text += part.text`). -/
def session_edit_decode (parts : List ResponsePart) : Option Nat × String :=
  parts.foldl (fun acc p =>
    if p.thought then acc
    else
      match p.text with
      | some t => (acc.1, acc.2 ++ t)
      | none =>
          match p.inline_data with
          | some d => (some d, acc.2)
          | none => acc) (none, "")

/-- Response decoding loop of generate_seamless_texture (lines 914-921):
returns the first inline image, skipping thought parts. -/
def generate_seamless_texture_decode : List ResponsePart → Option Nat
  | [] => none
  | p :: rest =>
      if p.thought then generate_seamless_texture_decode rest
      else
        match p.inline_data with
        | some d => some d
        | none => generate_seamless_texture_decode rest

/-- Parts with the thought flag removed. -/
def skipThought (parts : List ResponsePart) : List ResponsePart :=
  parts.filter (fun p => !p.thought)

-- ===========================================================================
-- composite_with_references truncation (nano_fun.py lines 827-832)
-- ===========================================================================

/-- Reference images actually sent by composite_with_references: a list longer
than 14 is replaced by `reference_images[:14]`. -/
def composite_with_references_refs (refs : List Nat) : List Nat :=
  if refs.length > 14 then refs.take 14 else refs

/-- Whether composite_with_references prints the truncation warning. -/
def composite_with_references_warned (refs : List Nat) : Bool :=
  decide (refs.length > 14)

/-- Contents of the issued request: `[prompt] + reference_images` after the
truncation. -/
def composite_with_references_contents (prompt : String) (refs : List Nat) :
    List (String ⊕ Nat) :=
  Sum.inl prompt :: (composite_with_references_refs refs).map Sum.inr

-- ===========================================================================
-- generate_style_variations (nano_fun.py lines 590-676)
-- ===========================================================================

/-- One entry of the STYLE_MODIFIERS table. -/
structure StyleModifier where
  id : String
  name : String
  modifier : String
  deriving DecidableEq

/-- The STYLE_MODIFIERS table of nano_fun.py. -/
def STYLE_MODIFIERS : List StyleModifier :=
  [⟨"warm", "Warm & Cozy", "with warm earth tones, soft textures, and ambient lighting"⟩,
   ⟨"cool", "Cool & Modern", "with cool tones, clean lines, and minimalist aesthetic"⟩,
   ⟨"natural", "Natural & Organic", "with natural materials, plants, and earthy elements"⟩,
   ⟨"luxurious", "Luxurious & Elegant", "with premium materials, rich colors, and sophisticated details"⟩,
   ⟨"bright", "Bright & Airy", "with light colors, open feel, and maximum natural light"⟩]

/-- Dataclass StyleVariation of nano_fun.py (image is the optional PIL image,
modelled as the opaque inline payload). -/
structure StyleVariation where
  id : String
  name : String
  description : String
  image : Option Nat
  deriving DecidableEq

/-- Outcome of one `generate_content` call inside generate_style_variations:
`ok` with the response parts, or `error` for a raised exception. -/
abbrev StyleOutcome := Except String (List ResponsePart)

/-- Whether a call outcome is a successful response. -/
def outcomeOk : StyleOutcome → Bool
  | Except.ok _ => true
  | Except.error _ => false

/-- Body of one iteration of the modifier loop: a raised exception is caught
and logged (nothing appended); a response without an inline image is skipped;
otherwise the StyleVariation is appended, with the description falling back to
`f"{base_style} {modifier['modifier']}"` when the decoded description is
falsy (empty). -/
def styleVariationStep (base_style : String) (m : StyleModifier) (outcome : StyleOutcome) :
    Option StyleVariation :=
  match outcome with
  | Except.error _ => none
  | Except.ok parts =>
      match style_variation_decode parts with
      | (none, _) => none
      | (some img, description) =>
          some ⟨m.id, m.name,
            if description = "" then base_style ++ " " ++ m.modifier else description,
            some img⟩

/-- The `for modifier in selected_modifiers` loop of generate_style_variations,
paired with the outcome of each issued request. -/
def runStyleLoop (base_style : String) :
    List (StyleModifier × StyleOutcome) → List StyleVariation
  | [] => []
  | (m, outcome) :: rest =>
      match styleVariationStep base_style m outcome with
      | none => runStyleLoop base_style rest
      | some v => v :: runStyleLoop base_style rest

/-- generate_style_variations: `selected_modifiers = STYLE_MODIFIERS[:min(num_variations, 5)]`,
then the loop, one request per selected modifier with the given outcomes. -/
def generate_style_variations (base_style : String) (num_variations : Nat)
    (outcomes : List StyleOutcome) : List StyleVariation :=
  runStyleLoop base_style ((STYLE_MODIFIERS.take (min num_variations 5)).zip outcomes)

/-- Number of `generate_content` requests issued by generate_style_variations:
one per selected modifier (the request is issued even when it then raises). -/
def style_requests_issued (num_variations : Nat) : Nat :=
  (STYLE_MODIFIERS.take (min num_variations 5)).length

-- ===========================================================================
-- image_to_bytes / bytes_to_image (nano_fun.py lines 215-238)
-- ===========================================================================

/-- Modelled from the spec: image_to_bytes and bytes_to_image delegate to the
external PIL codec, which is not part of this repository.  The spec asserts
that the default PNG encoding is lossless ("an image encoded to bytes and
decoded back yields a pixel-identical image of the same dimensions"), so an
image is modelled as its dimensions plus pixel data. -/
structure PILImage where
  width : Nat
  height : Nat
  pixels : List Nat
  deriving DecidableEq

/-- Modelled from the spec: the PNG byte stream is a lossless serialization of
the image's dimensions and pixel data; only the default "PNG" format of
`image_to_bytes(image, format)` is modelled. -/
def image_to_bytes (image : PILImage) (format : String) : List Nat :=
  if format = "PNG" then image.width :: image.height :: image.pixels else []

/-- Modelled from the spec: bytes_to_image reads back the serialized
dimensions and pixel data; unrecognized data fails to decode. -/
def bytes_to_image (data : List Nat) : Option PILImage :=
  match data with
  | w :: h :: px => some ⟨w, h, px⟩
  | _ => none

-- ===========================================================================
-- Helper lemmas
-- ===========================================================================

/-- Folding a step guarded by a skip predicate equals folding the unguarded
step over the filtered list. -/
theorem foldl_skip_filter {α β : Type} (f : β → α → β) (p : α → Bool) :
    ∀ (l : List α) (a : β),
      l.foldl (fun acc x => if p x then acc else f acc x) a
        = (l.filter (fun x => !p x)).foldl f a := by
  intro l
  induction l with
  | nil => intro a; rfl
  | cons x xs ih =>
      intro a
      by_cases hx : p x = true
      · simp [List.filter_cons, hx, ih]
      · simp [List.filter_cons, hx, ih]

/-- A run of parts with no text leaves the accumulated description unchanged. -/
theorem foldl_TI_text_frozen :
    ∀ (l : List ResponsePart) (a : Option Nat × String),
      (∀ q ∈ l, q.text = none) → (l.foldl decodeStepTI a).2 = a.2 := by
  intro l
  induction l with
  | nil => intro a _; rfl
  | cons x xs ih =>
      intro a h
      have hx := h x (List.mem_cons_self x xs)
      have hxs : ∀ q ∈ xs, q.text = none := fun q hq => h q (List.mem_cons_of_mem x hq)
      simp only [List.foldl_cons]
      rw [ih _ hxs]
      simp [decodeStepTI, hx]
      cases hd : x.inline_data <;> simp

/-- A run of parts none of which carries a fresh inline image leaves the
accumulated image unchanged. -/
theorem foldl_TI_img_frozen :
    ∀ (l : List ResponsePart) (a : Option Nat × String),
      (∀ q ∈ l, q.text ≠ none ∨ q.inline_data = none) → (l.foldl decodeStepTI a).1 = a.1 := by
  intro l
  induction l with
  | nil => intro a _; rfl
  | cons x xs ih =>
      intro a h
      have hx := h x (List.mem_cons_self x xs)
      have hxs : ∀ q ∈ xs, q.text ≠ none ∨ q.inline_data = none :=
        fun q hq => h q (List.mem_cons_of_mem x hq)
      simp only [List.foldl_cons]
      rw [ih _ hxs]
      cases ht : x.text with
      | some t => simp [decodeStepTI, ht]
      | none =>
          rcases hx with hx | hx
          · exact absurd ht hx
          · simp [decodeStepTI, ht, hx]

/-- The seamless-texture loop ignores filtered thought parts. -/
theorem texture_decode_skip (parts : List ResponsePart) :
    generate_seamless_texture_decode (skipThought parts)
      = generate_seamless_texture_decode parts := by
  induction parts with
  | nil => rfl
  | cons p rest ih =>
      by_cases hp : p.thought = true
      · simp [skipThought, List.filter_cons, hp, generate_seamless_texture_decode] at ih ⊢
        exact ih
      · simp only [Bool.not_eq_true] at hp
        simp [skipThought, List.filter_cons, hp, generate_seamless_texture_decode] at ih ⊢
        cases hd : p.inline_data <;> simp [ih]

-- ===========================================================================
-- C3: thought parts and the mixed text+image decoders
-- ===========================================================================

/-- Claim C3 counterexample: generate_image and edit_image do not check the
thought flag, so a thought-flagged part contributes its text (or image) to the
result; removing the thought parts changes the decoded output. -/
theorem generate_image_thought_kept_cex :
    (generate_image_decode [⟨true, some "internal reasoning", none⟩]).2 = "internal reasoning"
    ∧ ("internal reasoning" : String) ≠ ""
    ∧ (edit_image_decode [⟨true, none, some 7⟩]).1 = some 7
    ∧ (edit_image_decode (skipThought [⟨true, none, some 7⟩])).1 = none := by
  refine ⟨rfl, by decide, rfl, rfl⟩

/-- Claim C3 (amended): every decoder that checks the thought flag -
generate_room_style, the generate_style_variations inner loop, the session
edit, composite_with_references, seamless texture, grounded generation, and 4K
generation - discards thought-flagged parts: decoding the response with the
thought parts removed gives the same description and image.  (generate_image
and edit_image do not check the flag; see the counterexample.) -/
theorem thought_parts_discarded_amended (parts : List ResponsePart) :
    generate_room_style_decode (skipThought parts) = generate_room_style_decode parts
    ∧ style_variation_decode (skipThought parts) = style_variation_decode parts
    ∧ session_edit_decode (skipThought parts) = session_edit_decode parts
    ∧ composite_with_references_decode (skipThought parts)
        = composite_with_references_decode parts
    ∧ generate_seamless_texture_decode (skipThought parts)
        = generate_seamless_texture_decode parts
    ∧ generate_grounded_image_decode (skipThought parts)
        = generate_grounded_image_decode parts
    ∧ generate_4k_image_decode (skipThought parts) = generate_4k_image_decode parts := by
  have hfilter : skipThought (skipThought parts) = skipThought parts := by
    simp [skipThought, List.filter_filter]
  refine ⟨?_, ?_, ?_, ?_, texture_decode_skip parts, ?_, ?_⟩ <;>
    simp only [generate_room_style_decode, style_variation_decode, session_edit_decode,
      composite_with_references_decode, generate_grounded_image_decode,
      generate_4k_image_decode, foldl_skip_filter] <;>
    rw [show (fun p : ResponsePart => !p.thought) = fun p => !p.thought from rfl] <;>
    rw [← skipThought, ← skipThought, hfilter]

-- ===========================================================================
-- C2: which text/image segment generate_image and edit_image return
-- ===========================================================================

/-- Claim C2 counterexample: with two text parts the decoded description is
the second (last) text segment, not the first; with two inline parts the
decoded image is the second (last) inline payload, not the first. -/
theorem generate_image_first_segment_cex :
    (generate_image_decode
        [⟨false, some "first text", none⟩, ⟨false, some "second text", none⟩]).2
      = "second text"
    ∧ ("second text" : String) ≠ "first text"
    ∧ (generate_image_decode [⟨false, none, some 1⟩, ⟨false, none, some 2⟩]).1 = some 2
    ∧ (some 2 : Option Nat) ≠ some 1
    ∧ (edit_image_decode
        [⟨false, some "first text", none⟩, ⟨false, some "second text", none⟩]).2
      = "second text" := by
  refine ⟨rfl, by decide, rfl, by decide, rfl⟩

/-- Claim C2 (amended): in generate_image and edit_image the loop overwrites,
so the returned description is the text of the LAST part carrying text, and
the returned image is decoded from the LAST part that carries inline data and
no text (a part with text never contributes its inline data, because of the
elif). -/
theorem generate_image_edit_image_last_segment
    (l1 l2 : List ResponsePart) (tp : ResponsePart) (t : String)
    (ht : tp.text = some t) (hl : ∀ q ∈ l2, q.text = none)
    (m1 m2 : List ResponsePart) (ip : ResponsePart) (d : Nat)
    (hit : ip.text = none) (hid : ip.inline_data = some d)
    (hm : ∀ q ∈ m2, q.text ≠ none ∨ q.inline_data = none) :
    ((generate_image_decode (l1 ++ tp :: l2)).2 = t
      ∧ (generate_image_decode (m1 ++ ip :: m2)).1 = some d)
    ∧ ((edit_image_decode (l1 ++ tp :: l2)).2 = t
      ∧ (edit_image_decode (m1 ++ ip :: m2)).1 = some d) := by
  have htext : ∀ (a : Option Nat × String),
      ((l1 ++ tp :: l2).foldl decodeStepTI a).2 = t := by
    intro a
    rw [List.foldl_append, List.foldl_cons]
    rw [foldl_TI_text_frozen l2 _ hl]
    simp [decodeStepTI, ht]
  have himg : ∀ (a : Option Nat × String),
      ((m1 ++ ip :: m2).foldl decodeStepTI a).1 = some d := by
    intro a
    rw [List.foldl_append, List.foldl_cons]
    rw [foldl_TI_img_frozen m2 _ hm]
    simp [decodeStepTI, hit, hid]
  exact ⟨⟨htext _, himg _⟩, ⟨htext _, himg _⟩⟩

/-- Concrete instantiation of the last-segment theorem: a text part followed by
an image-only part still yields that text, and an inline part followed by a
text-carrying part (even one that also has inline data) still yields that
image. -/
theorem generate_image_edit_image_last_segment_witness :
    ((generate_image_decode
        [⟨false, some "a sofa", none⟩, ⟨false, none, some 7⟩]).2 = "a sofa"
      ∧ (generate_image_decode
        [⟨false, none, some 3⟩, ⟨false, some "caption", some 9⟩]).1 = some 3)
    ∧ ((edit_image_decode
        [⟨false, some "a sofa", none⟩, ⟨false, none, some 7⟩]).2 = "a sofa"
      ∧ (edit_image_decode
        [⟨false, none, some 3⟩, ⟨false, some "caption", some 9⟩]).1 = some 3) :=
  generate_image_edit_image_last_segment
    [] [⟨false, none, some 7⟩] ⟨false, some "a sofa", none⟩ "a sofa" rfl (by decide)
    [] [⟨false, some "caption", some 9⟩] ⟨false, none, some 3⟩ 3 rfl rfl (by decide)

-- ===========================================================================
-- C6: malformed JSON yields the documented default, never an exception
-- ===========================================================================

/-- Claim C6: when the response text fails to parse as JSON (the parse result
is `none`, i.e. json.loads raised JSONDecodeError), each structured-decode
function catches the error and returns its documented empty/zero-valued
default - an `ok` result, never a propagated exception: recognize_objects the
empty list, analyze_room the zero-valued RoomAnalysis, generate_floor_plan the
empty FloorPlan with zero dimensions, get_product_recommendations the empty
list. -/
theorem structured_decode_fail_soft (min_confidence : ℚ) :
    recognize_objects_decode none min_confidence = Except.ok []
    ∧ analyze_room_decode none
        = Except.ok ⟨Json.str "unknown", ⟨Json.num 0, Json.num 0, Json.num 0⟩,
            Json.arr [], Json.arr [], Json.arr []⟩
    ∧ generate_floor_plan_decode none
        = Except.ok ⟨Json.arr [], Json.arr [], Json.arr [], floorPlanDefaultDims⟩
    ∧ get_product_recommendations_decode none = Except.ok [] :=
  ⟨rfl, rfl, rfl, rfl⟩

-- ===========================================================================
-- C8: floor plan response missing the "doors" key
-- ===========================================================================

/-- Claim C8: a floor-plan response that parses to a JSON object without a
"doors" key decodes to a FloorPlan whose doors field is the empty list, while
walls, windows, and dimensions take the values of the corresponding keys
present in the response. -/
theorem generate_floor_plan_missing_doors
    (fs : List (String × Json)) (w win d : Json)
    (hd : lookupField fs "doors" = none)
    (hw : lookupField fs "walls" = some w)
    (hwin : lookupField fs "windows" = some win)
    (hdim : lookupField fs "dimensions" = some d) :
    generate_floor_plan_decode (some (Json.obj fs)) = Except.ok ⟨w, Json.arr [], win, d⟩ := by
  simp [generate_floor_plan_decode, hd, hw, hwin, hdim]

/-- Concrete instantiation of the missing-doors theorem. -/
theorem generate_floor_plan_missing_doors_witness :
    generate_floor_plan_decode
        (some (Json.obj
          [("walls", Json.arr [Json.str "w1"]),
           ("windows", Json.arr [Json.str "win1"]),
           ("dimensions", Json.obj [("width", Json.num 5), ("length", Json.num 4)])]))
      = Except.ok ⟨Json.arr [Json.str "w1"], Json.arr [],
          Json.arr [Json.str "win1"],
          Json.obj [("width", Json.num 5), ("length", Json.num 4)]⟩ :=
  generate_floor_plan_missing_doors _ _ _ _ rfl rfl rfl rfl

-- ===========================================================================
-- C9: image byte round trip
-- ===========================================================================

/-- Claim C9: encoding an image to bytes with the default PNG format and
decoding back yields a pixel-identical image with the same width and height
(the PIL PNG codec is external to the repository and is modelled from the
spec as a lossless serialization). -/
theorem image_round_trip (image : PILImage) :
    bytes_to_image (image_to_bytes image "PNG") = some image
    ∧ (bytes_to_image (image_to_bytes image "PNG")).map PILImage.width = some image.width
    ∧ (bytes_to_image (image_to_bytes image "PNG")).map PILImage.height = some image.height
    ∧ (bytes_to_image (image_to_bytes image "PNG")).map PILImage.pixels = some image.pixels :=
  ⟨rfl, rfl, rfl, rfl⟩

-- ===========================================================================
-- C5: composite_with_references truncation at 14
-- ===========================================================================

/-- Claim C5: composite_with_references sends at most 14 reference images.  A
list longer than 14 is truncated to exactly its first 14 elements, with the
warning printed, before the request is issued; a list of 14 or fewer is sent
unchanged and no warning is printed.  The request contents are the prompt
followed by the (possibly truncated) reference images. -/
theorem composite_with_references_truncates (prompt : String) (refs : List Nat) :
    (composite_with_references_refs refs).length ≤ 14
    ∧ (refs.length > 14 →
        composite_with_references_refs refs = refs.take 14
        ∧ (composite_with_references_refs refs).length = 14
        ∧ composite_with_references_warned refs = true)
    ∧ (refs.length ≤ 14 →
        composite_with_references_refs refs = refs
        ∧ composite_with_references_warned refs = false)
    ∧ composite_with_references_contents prompt refs
        = Sum.inl prompt :: (composite_with_references_refs refs).map Sum.inr := by
  refine ⟨?_, ?_, ?_, rfl⟩
  · by_cases h : refs.length > 14
    · simp [composite_with_references_refs, h, List.length_take]
    · simp only [composite_with_references_refs, if_neg h]
      omega
  · intro h
    refine ⟨?_, ?_, ?_⟩
    · simp [composite_with_references_refs, h]
    · simp [composite_with_references_refs, h, List.length_take]
      omega
    · simp [composite_with_references_warned, h]
  · intro h
    have h' : ¬ refs.length > 14 := by omega
    exact ⟨by simp [composite_with_references_refs, h'],
      by simp [composite_with_references_warned, h']⟩

/-- Concrete instantiation: 20 references are truncated to the first 14,
while 3 references go through unchanged. -/
theorem composite_with_references_truncates_witness :
    (composite_with_references_refs (List.range 20) = (List.range 20).take 14
      ∧ (composite_with_references_refs (List.range 20)).length = 14)
    ∧ composite_with_references_refs [5, 6, 7] = [5, 6, 7] :=
  ⟨⟨((composite_with_references_truncates "p" (List.range 20)).2.1 (by decide)).1,
    ((composite_with_references_truncates "p" (List.range 20)).2.1 (by decide)).2.1⟩,
   ((composite_with_references_truncates "p" [5, 6, 7]).2.2.1 (by decide)).1⟩

-- ===========================================================================
-- C4: inclusive confidence filtering in recognize_objects
-- ===========================================================================

/-- An item kept by the recognize_objects loop passed the inclusive comparison:
its stored confidence value is numeric (in Python's comparison sense) and at
least the threshold. -/
theorem recognize_decode_item_conf (t : ℚ) (item : Json) (r : RecognizedObject)
    (h : recognize_decode_item t item = Except.ok (some r)) :
    ∃ q, pyNum r.confidence = some q ∧ t ≤ q := by
  unfold recognize_decode_item at h
  split at h
  case _ ifs =>
    split at h
    case _ => exact Except.noConfusion h
    case _ q hq =>
      split at h
      case isTrue hle =>
        split at h
        case _ bfs =>
          have hr' := Option.some.inj (Except.ok.inj h)
          refine ⟨q, ?_, hle⟩
          rw [← hr']
          exact hq
        all_goals exact Except.noConfusion h
      case isFalse => exact Option.noConfusion (Except.ok.inj h)
  case _ j hj => exact Except.noConfusion h

/-- Every object returned by the recognize_objects loop has confidence at
least the threshold. -/
theorem recognize_loop_mem (t : ℚ) :
    ∀ (items : List Json) (res : List RecognizedObject),
      recognize_loop t items = Except.ok res →
      ∀ o ∈ res, ∃ q, pyNum o.confidence = some q ∧ t ≤ q := by
  intro items
  induction items with
  | nil =>
      intro res h o ho
      simp only [recognize_loop] at h
      rw [← Except.ok.inj h] at ho
      exact absurd ho (List.not_mem_nil o)
  | cons item rest ih =>
      intro res h o ho
      simp only [recognize_loop] at h
      split at h
      case _ e he => exact Except.noConfusion h
      case _ oi hoi =>
        split at h
        case _ e he => exact Except.noConfusion h
        case _ tail htail =>
          split at h
          case _ r =>
            rw [← Except.ok.inj h] at ho
            rcases List.mem_cons.mp ho with rfl | hmem
            · exact recognize_decode_item_conf t item o hoi
            · exact ih tail htail o hmem
          case _ =>
            rw [← Except.ok.inj h] at ho
            exact ih tail htail o ho

/-- Claim C4: a successful recognize_objects decode returns only objects whose
confidence is at least the threshold t, and the comparison is inclusive: a
response object whose confidence equals t exactly is kept (second conjunct,
evaluated on a one-object response with confidence exactly t). -/
theorem recognize_objects_threshold_inclusive
    (parsed : Option Json) (t : ℚ) (res : List RecognizedObject)
    (h : recognize_objects_decode parsed t = Except.ok res) :
    (∀ o ∈ res, ∃ q, pyNum o.confidence = some q ∧ t ≤ q)
    ∧ recognize_objects_decode (some (Json.arr [Json.obj [("confidence", Json.num t)]])) t
        = Except.ok [⟨Json.str "unknown", Json.num t,
            ⟨Json.num 0, Json.num 0, Json.num 1, Json.num 1⟩, Json.str "other"⟩] := by
  constructor
  · intro o ho
    unfold recognize_objects_decode at h
    split at h
    · rw [← Except.ok.inj h] at ho
      exact absurd ho (List.not_mem_nil o)
    case _ items => exact recognize_loop_mem t items res h o ho
    · rw [← Except.ok.inj h] at ho
      exact absurd ho (List.not_mem_nil o)
    · exact Except.noConfusion h
    case _ s =>
      split at h
      · rw [← Except.ok.inj h] at ho
        exact absurd ho (List.not_mem_nil o)
      · exact Except.noConfusion h
    · exact Except.noConfusion h
  · have hitem : recognize_decode_item t (Json.obj [("confidence", Json.num t)])
        = if t ≤ t then
            Except.ok (some ⟨Json.str "unknown", Json.num t,
              ⟨Json.num 0, Json.num 0, Json.num 1, Json.num 1⟩, Json.str "other"⟩)
          else Except.ok none := rfl
    rw [if_pos (le_refl t)] at hitem
    show recognize_loop t [Json.obj [("confidence", Json.num t)]] = _
    simp only [recognize_loop, hitem]

/-- Concrete instantiation of the threshold theorem at threshold 0 with a
confidence-1 object, plus the boundary case confidence = threshold = 0. -/
theorem recognize_objects_threshold_inclusive_witness :
    (∀ o ∈ [(⟨Json.str "unknown", Json.num 1,
        ⟨Json.num 0, Json.num 0, Json.num 1, Json.num 1⟩, Json.str "other"⟩ : RecognizedObject)],
      ∃ q, pyNum o.confidence = some q ∧ (0 : ℚ) ≤ q)
    ∧ recognize_objects_decode (some (Json.arr [Json.obj [("confidence", Json.num 0)]])) 0
        = Except.ok [⟨Json.str "unknown", Json.num 0,
            ⟨Json.num 0, Json.num 0, Json.num 1, Json.num 1⟩, Json.str "other"⟩] :=
  recognize_objects_threshold_inclusive
    (some (Json.arr [Json.obj [("confidence", Json.num 1)]])) 0
    [⟨Json.str "unknown", Json.num 1,
      ⟨Json.num 0, Json.num 0, Json.num 1, Json.num 1⟩, Json.str "other"⟩]
    (by rfl)

-- ===========================================================================
-- C1: defaults for missing fields in the structured decoders
-- ===========================================================================

/-- Claim C1 counterexample: in recognize_objects a missing max_x (and max_y)
bounding-box coordinate defaults to 1, not 0 - the decoded object's
bounding box is (0, 0, 1, 1), and 1 is not 0. -/
theorem recognize_objects_max_default_one_cex :
    recognize_objects_decode (some (Json.arr [Json.obj [("confidence", Json.num 1)]])) 0
      = Except.ok [⟨Json.str "unknown", Json.num 1,
          ⟨Json.num 0, Json.num 0, Json.num 1, Json.num 1⟩, Json.str "other"⟩]
    ∧ Json.num 1 ≠ Json.num 0 :=
  ⟨rfl, fun hcontra => one_ne_zero (Json.num.inj hcontra)⟩

/-- Claim C1 (amended): in the structured-decode paths a field missing from
the parsed JSON is replaced by its documented default - missing numeric
fields default to 0 except the recognize_objects bounding-box maxima
max_x and max_y, which default to 1 (min_x and min_y default to 0); missing
list fields default to the empty list; a missing category defaults to
"other" and missing label/room_type strings to "unknown"; analyze_room's
missing dimensions default to 0. -/
theorem missing_field_defaults_amended
    (t conf : ℚ) (ht : t ≤ conf)
    (ifs bfs rfs : List (String × Json))
    (hc : lookupField ifs "confidence" = some (Json.num conf))
    (hb : lookupField ifs "bounding_box" = some (Json.obj bfs))
    (hlab : lookupField ifs "label" = none)
    (hcat : lookupField ifs "category" = none)
    (h1 : lookupField bfs "min_x" = none) (h2 : lookupField bfs "min_y" = none)
    (h3 : lookupField bfs "max_x" = none) (h4 : lookupField bfs "max_y" = none)
    (hrt : lookupField rfs "room_type" = none)
    (hdim : lookupField rfs "dimensions" = none)
    (hls : lookupField rfs "lighting_suggestions" = none)
    (hsr : lookupField rfs "style_recommendations" = none)
    (hdf : lookupField rfs "detected_features" = none) :
    recognize_objects_decode (some (Json.arr [Json.obj ifs])) t
      = Except.ok [⟨Json.str "unknown", Json.num conf,
          ⟨Json.num 0, Json.num 0, Json.num 1, Json.num 1⟩, Json.str "other"⟩]
    ∧ analyze_room_decode (some (Json.obj rfs))
      = Except.ok ⟨Json.str "unknown", ⟨Json.num 0, Json.num 0, Json.num 0⟩,
          Json.arr [], Json.arr [], Json.arr []⟩ := by
  constructor
  · show recognize_loop t [Json.obj ifs] = _
    have hitem : recognize_decode_item t (Json.obj ifs)
        = Except.ok (some ⟨Json.str "unknown", Json.num conf,
            ⟨Json.num 0, Json.num 0, Json.num 1, Json.num 1⟩, Json.str "other"⟩) := by
      unfold recognize_decode_item
      dsimp only
      rw [hc, hb, hlab, hcat]
      dsimp only [Option.getD, pyNum]
      rw [h1, h2, h3, h4]
      simp [ht]
    simp only [recognize_loop, hitem]
  · unfold analyze_room_decode
    dsimp only
    rw [hrt, hdim, hls, hsr, hdf]
    simp [lookupField]

/-- Concrete instantiation of the defaults theorem: a one-object response
carrying only a confidence and an empty bounding_box dict, and an empty
analyze_room object. -/
theorem missing_field_defaults_amended_witness :
    recognize_objects_decode
        (some (Json.arr [Json.obj
          [("confidence", Json.num 1), ("bounding_box", Json.obj [])]])) 0
      = Except.ok [⟨Json.str "unknown", Json.num 1,
          ⟨Json.num 0, Json.num 0, Json.num 1, Json.num 1⟩, Json.str "other"⟩]
    ∧ analyze_room_decode (some (Json.obj []))
      = Except.ok ⟨Json.str "unknown", ⟨Json.num 0, Json.num 0, Json.num 0⟩,
          Json.arr [], Json.arr [], Json.arr []⟩ :=
  missing_field_defaults_amended 0 1 zero_le_one
    [("confidence", Json.num 1), ("bounding_box", Json.obj [])] [] []
    rfl rfl rfl rfl rfl rfl rfl rfl rfl rfl rfl rfl rfl

-- ===========================================================================
-- C7: request bound and per-item isolation in generate_style_variations
-- ===========================================================================

/-- A failing outcome contributes nothing and does not disturb the rest: the
modifier loop computes the same variations as the loop run on the successful
outcomes only. -/
theorem runStyleLoop_filter_ok (b : String) :
    ∀ l : List (StyleModifier × StyleOutcome),
      runStyleLoop b l = runStyleLoop b (l.filter (fun p => outcomeOk p.2)) := by
  intro l
  induction l with
  | nil => rfl
  | cons p rest ih =>
      obtain ⟨m, outcome⟩ := p
      cases outcome with
      | error e =>
          have hfil : (((m, Except.error e) :: rest).filter (fun p => outcomeOk p.2))
              = rest.filter (fun p => outcomeOk p.2) := rfl
          have hrun : runStyleLoop b ((m, Except.error e) :: rest) = runStyleLoop b rest := rfl
          rw [hfil, hrun, ih]
      | ok parts =>
          have hfil : (((m, Except.ok parts) :: rest).filter (fun p => outcomeOk p.2))
              = (m, Except.ok parts) :: rest.filter (fun p => outcomeOk p.2) := rfl
          rw [hfil]
          cases hs : styleVariationStep b m (Except.ok parts) with
          | none => simp only [runStyleLoop, hs]; exact ih
          | some w => simp only [runStyleLoop, hs]; rw [ih]

/-- Claim C7: for n <= 5, generate_style_variations issues at most n requests
(one per selected style modifier), and an exception raised while generating
one variation is caught: the returned list equals the loop run on only the
successful outcomes, so a failure in one variation does not prevent the
remaining variations from being generated and included. -/
theorem generate_style_variations_bounded_isolated
    (base_style : String) (n : Nat) (outcomes : List StyleOutcome)
    (hn : n ≤ 5) :
    style_requests_issued n ≤ n
    ∧ generate_style_variations base_style n outcomes
        = runStyleLoop base_style
            (((STYLE_MODIFIERS.take (min n 5)).zip outcomes).filter
              (fun p => outcomeOk p.2)) := by
  constructor
  · have hlen : style_requests_issued n = min (min n 5) 5 := by
      simp [style_requests_issued, STYLE_MODIFIERS, List.length_take]
    omega
  · exact runStyleLoop_filter_ok base_style _

/-- Concrete instantiation: two variations requested, the first request
raises, the second still produces its variation. -/
theorem generate_style_variations_bounded_isolated_witness :
    style_requests_issued 2 ≤ 2
    ∧ generate_style_variations "modern" 2
        [Except.error "boom", Except.ok [⟨false, none, some 5⟩]]
      = runStyleLoop "modern"
          (((STYLE_MODIFIERS.take (min 2 5)).zip
            [Except.error "boom", Except.ok [⟨false, none, some 5⟩]]).filter
            (fun p => outcomeOk p.2)) :=
  generate_style_variations_bounded_isolated "modern" 2
    [Except.error "boom", Except.ok [⟨false, none, some 5⟩]] (by decide)

-- ===========================================================================
-- C10: invariants of the returned StyleVariation list
-- ===========================================================================

/-- A variation appended by the loop body always carries an image and a
non-empty description (the fallback description contains a space, so it is
never empty). -/
theorem styleVariationStep_some (b : String) (m : StyleModifier) (o : StyleOutcome)
    (v : StyleVariation) (h : styleVariationStep b m o = some v) :
    v.image ≠ none ∧ v.description ≠ "" := by
  cases o with
  | error e => exact Option.noConfusion h
  | ok parts =>
      unfold styleVariationStep at h
      dsimp only at h
      rcases hd : style_variation_decode parts with ⟨img, desc⟩
      rw [hd] at h
      cases img with
      | none => exact Option.noConfusion h
      | some i =>
          rw [← Option.some.inj h]
          refine ⟨by simp, ?_⟩
          show (if desc = "" then b ++ " " ++ m.modifier else desc) ≠ ""
          by_cases hdesc : desc = ""
          · rw [if_pos hdesc]
            intro hcontra
            have hlen := congrArg String.length hcontra
            rw [String.length_append, String.length_append] at hlen
            have hone : (" " : String).length = 1 := rfl
            have hz : ("" : String).length = 0 := rfl
            rw [hone, hz] at hlen
            omega
          · rw [if_neg hdesc]
            exact hdesc

/-- Every variation in the loop result has an image and a non-empty
description. -/
theorem runStyleLoop_mem (b : String) :
    ∀ (l : List (StyleModifier × StyleOutcome)) (v : StyleVariation),
      v ∈ runStyleLoop b l → v.image ≠ none ∧ v.description ≠ "" := by
  intro l
  induction l with
  | nil => intro v hv; exact absurd hv (List.not_mem_nil v)
  | cons p rest ih =>
      intro v hv
      obtain ⟨m, o⟩ := p
      cases hs : styleVariationStep b m o with
      | none =>
          simp only [runStyleLoop, hs] at hv
          exact ih v hv
      | some w =>
          simp only [runStyleLoop, hs] at hv
          rcases List.mem_cons.mp hv with rfl | hmem
          · exact styleVariationStep_some b m o v hs
          · exact ih v hmem

/-- Claim C10: every StyleVariation returned by generate_style_variations has
a non-None image and a non-empty description (with the synthesized
base-style/modifier fallback used when the response had no text), and a
variation whose response contains no inline image part is omitted from the
returned list entirely (its loop step appends nothing). -/
theorem style_variations_invariant
    (base_style : String) (n : Nat) (outcomes : List StyleOutcome)
    (v : StyleVariation) (hv : v ∈ generate_style_variations base_style n outcomes)
    (m : StyleModifier) (parts : List ResponsePart)
    (hni : (style_variation_decode parts).1 = none) :
    (v.image ≠ none ∧ v.description ≠ "")
    ∧ styleVariationStep base_style m (Except.ok parts) = none := by
  refine ⟨runStyleLoop_mem base_style _ v hv, ?_⟩
  unfold styleVariationStep
  dsimp only
  rcases hd : style_variation_decode parts with ⟨img, desc⟩
  rw [hd] at hni
  have himg : img = none := hni
  subst himg
  rfl

/-- Concrete instantiation: one successful image-only response produces the
variation with the synthesized description, and an empty response (no image)
contributes nothing. -/
theorem style_variations_invariant_witness :
    ((⟨"warm", "Warm & Cozy",
        "modern with warm earth tones, soft textures, and ambient lighting",
        some 5⟩ : StyleVariation).image ≠ none
      ∧ (⟨"warm", "Warm & Cozy",
        "modern with warm earth tones, soft textures, and ambient lighting",
        some 5⟩ : StyleVariation).description ≠ "")
    ∧ styleVariationStep "modern"
        ⟨"warm", "Warm & Cozy", "with warm earth tones, soft textures, and ambient lighting"⟩
        (Except.ok []) = none :=
  style_variations_invariant "modern" 1 [Except.ok [⟨false, none, some 5⟩]]
    ⟨"warm", "Warm & Cozy",
      "modern with warm earth tones, soft textures, and ambient lighting", some 5⟩
    (by decide)
    ⟨"warm", "Warm & Cozy", "with warm earth tones, soft textures, and ambient lighting"⟩
    [] rfl
